import Mathlib

/-!
Verification of the prompt-construction decision process of `rl-prompt-engine`.

Two environments are embedded from the source:

* `AppointmentPromptEnv` (`core/appointment_prompt_env.py`): the fixed-domain
  variant with 10 components, 6 customer types, 4 conversation stages,
  3 urgency levels, a packed `C*P*2` action encoding, and the default catalog
  that `_get_default_config` ships.
* `PromptEnv` (`core/prompt_env.py`): the generic, configuration-driven
  variant with the `C+1` "select-or-finish" action space.

Floats are modelled as rationals (`ℚ`); every constant in the source is an
exact decimal, so this is faithful.  Python lists become `List`, dict lookups
become total functions over the concrete default catalog (with the lookup
semantics of the source: `dict.get` with a default becomes `Option.getD`).
-/

namespace RLPromptEngine

/-- Number of prompt components (`N_PROMPT_COMPONENTS` in the source). -/
def N_PROMPT_COMPONENTS : Nat := 10

/-- Maximum number of components in a single prompt (`MAX_PROMPT_LENGTH`). -/
def MAX_PROMPT_LENGTH : Nat := 6

/-- Number of customer personas (`N_CUSTOMER_TYPES`). -/
def N_CUSTOMER_TYPES : Nat := 6

/-- Number of conversation stages (`N_CONVERSATION_STAGES`). -/
def N_CONVERSATION_STAGES : Nat := 4

/-- Number of urgency levels (`N_URGENCY_LEVELS`). -/
def N_URGENCY_LEVELS : Nat := 3

namespace AppointmentPromptEnv

/-- `finish = action % 2` (line 319 of `appointment_prompt_env.py`). -/
def decode_finish (action : Nat) : Nat := action % 2

/-- `position = (action // 2) % MAX_PROMPT_LENGTH` (line 320). -/
def decode_position (action : Nat) : Nat := (action / 2) % MAX_PROMPT_LENGTH

/-- `component_idx = (action // (2 * MAX_PROMPT_LENGTH)) % N_PROMPT_COMPONENTS`
(line 321). -/
def decode_component (action : Nat) : Nat :=
  (action / (2 * MAX_PROMPT_LENGTH)) % N_PROMPT_COMPONENTS

/-- The inverse composition of the decoding rules:
`encode(c, p, f) = c * (2 * P) + p * 2 + f`. -/
def encode_action (c p f : Nat) : Nat := c * (2 * MAX_PROMPT_LENGTH) + p * 2 + f

/-- The `effectiveness` map of each entry of the default catalog
(`_get_default_config`), indexed by component then customer type.
Component order (dict order of `prompt_components`): 0 rapport_building,
1 needs_assessment, 2 value_proposition, 3 objection_handling,
4 urgency_creation, 5 social_proof, 6 incentive_offering,
7 appointment_booking, 8 follow_up, 9 personalization.
Customer-type order (dict order of `customer_types`): 0 cautious,
1 price_shopper, 2 ready_buyer, 3 research_buyer, 4 impulse_buyer,
5 skeptical. -/
def effectiveness_table : List (List ℚ) :=
  [[9/10, 6/10, 7/10, 8/10, 5/10, 8/10],
   [8/10, 7/10, 6/10, 9/10, 4/10, 7/10],
   [7/10, 9/10, 8/10, 8/10, 6/10, 7/10],
   [8/10, 9/10, 5/10, 8/10, 4/10, 9/10],
   [4/10, 8/10, 7/10, 3/10, 9/10, 5/10],
   [8/10, 6/10, 5/10, 9/10, 4/10, 8/10],
   [6/10, 9/10, 7/10, 5/10, 8/10, 6/10],
   [5/10, 7/10, 9/10, 4/10, 8/10, 6/10],
   [7/10, 6/10, 5/10, 8/10, 4/10, 7/10],
   [8/10, 7/10, 6/10, 9/10, 5/10, 8/10]]

/-- Lookup `component["effectiveness"][customer_type_name]` on the default
catalog, with component and customer type as indices. -/
def effectiveness (c t : Nat) : ℚ := (effectiveness_table.getD c []).getD t 0

/-- The `stage_effectiveness` map of each entry of the default catalog,
indexed by component then stage.  Stage order (dict order of
`conversation_stages`): 0 early, 1 middle, 2 late, 3 closing. -/
def stage_effectiveness_table : List (List ℚ) :=
  [[9/10, 7/10, 4/10, 2/10],
   [8/10, 9/10, 6/10, 3/10],
   [5/10, 8/10, 9/10, 7/10],
   [4/10, 7/10, 8/10, 9/10],
   [3/10, 6/10, 8/10, 9/10],
   [6/10, 8/10, 7/10, 5/10],
   [4/10, 6/10, 8/10, 9/10],
   [2/10, 4/10, 8/10, 9/10],
   [3/10, 5/10, 7/10, 8/10],
   [7/10, 8/10, 6/10, 4/10]]

/-- Lookup `component["stage_effectiveness"][conversation_stage_name]` on the
default catalog. -/
def stage_effectiveness (c st : Nat) : ℚ :=
  (stage_effectiveness_table.getD c []).getD st 0

/-- The `compatibility` lists of the default catalog, with component names
replaced by their indices. -/
def compatibility (c : Nat) : List Nat :=
  [[1, 2], [0, 2], [1, 3], [2, 4], [3, 5],
   [4, 6], [5, 7], [6, 8], [7], [0, 1]].getD c []

/-- The `preferences` lists of the `customer_types` entries of the default
catalog, with component names replaced by their indices. -/
def preferences (t : Nat) : List Nat :=
  [[0, 1, 5, 9], [2, 3, 6], [2, 7, 6], [1, 5, 9, 8],
   [4, 6, 7], [0, 3, 5, 9]].getD t []

/-- The `preferred_components` lists of the `conversation_stages` entries of
the default catalog, with component names replaced by their indices. -/
def preferred_components (st : Nat) : List Nat :=
  [[0, 1, 9], [1, 2, 5], [3, 4, 6], [7, 4, 6]].getD st []

/-- The components named in the urgency bonus check of
`_calculate_component_reward` (`urgency_creation`, `appointment_booking`). -/
def urgency_components : List Nat := [4, 7]

/-- The `urgency_levels` name list of `_calculate_component_reward`. -/
def urgency_name (u : Nat) : String := ["low", "medium", "high"].getD u ""

/-- Mutable per-episode state of `AppointmentPromptEnv`, as set up by
`reset` and mutated by `step`. -/
structure AppState where
  customer_type : Nat
  conversation_stage : Nat
  urgency_level : Nat
  customer_psychology : List ℚ
  prompt_so_far : List ℚ
  turn : Nat
  selected_components : List Nat
  deriving DecidableEq

/-- The `(observation, reward, terminated, truncated, info)` tuple returned by
`step`, without the observation and info dictionaries (the observation is a
projection of the state; `prompt_so_far` is carried inside the state). -/
structure AppResult where
  state : AppState
  reward : ℚ
  terminated : Bool
  truncated : Bool
  deriving DecidableEq

/-- `_calculate_component_reward`: average of customer-type and stage
effectiveness, then the 1.2 / 1.1 / 1.15 preference, stage and urgency
multipliers, scaled by 0.1. -/
def calculate_component_reward (s : AppState) (component_idx : Nat) : ℚ :=
  let base_effectiveness := effectiveness component_idx s.customer_type
  let stage_eff := stage_effectiveness component_idx s.conversation_stage
  let combined := (base_effectiveness + stage_eff) / 2
  let combined :=
    if component_idx ∈ preferences s.customer_type then combined * (12/10)
    else combined
  let combined :=
    if component_idx ∈ preferred_components s.conversation_stage then
      combined * (11/10)
    else combined
  let combined :=
    if urgency_name s.urgency_level = "high" ∧
        component_idx ∈ urgency_components then combined * (115/100)
    else combined
  combined * (1/10)

/-- The claim's reading of `_calculate_component_reward`, written as the
spec states it: an average followed by a product of conditional bonus
factors and the 0.1 scale. -/
def component_reward_formula (s : AppState) (component_idx : Nat) : ℚ :=
  (effectiveness component_idx s.customer_type +
      stage_effectiveness component_idx s.conversation_stage) / 2 *
    (if component_idx ∈ preferences s.customer_type then 12/10 else 1) *
    (if component_idx ∈ preferred_components s.conversation_stage then 11/10
      else 1) *
    (if urgency_name s.urgency_level = "high" ∧
        component_idx ∈ urgency_components then 115/100 else 1) *
    (1/10)

/-- The ordered pairs visited by the double `enumerate` loop of
`_calculate_compatibility_reward` (all pairs of positions `i ≠ j`). -/
def compatibility_pairs (sel : List Nat) : List (Nat × Nat) :=
  sel.enum.flatMap fun a =>
    sel.enum.filterMap fun b => if a.1 ≠ b.1 then some (a.2, b.2) else none

/-- `_calculate_compatibility_reward`: +1 per compatible ordered pair,
-0.3 per incompatible one, averaged over the pairs and scaled by 0.05;
0 when fewer than two components are selected. -/
def calculate_compatibility_reward (sel : List Nat) : ℚ :=
  if sel.length < 2 then 0
  else
    let pairs := compatibility_pairs sel
    let score :=
      (pairs.map fun p =>
        if p.2 ∈ compatibility p.1 then (1 : ℚ) else -(3/10)).sum
    if 0 < pairs.length then score / pairs.length * (5/100) else 0

/-- `_calculate_psychology_alignment_bonus`: +0.05 per selected component per
matching rule of the fixed table, capped at 0.2.  The five psychology
dimensions are read positionally (interest, urgency, availability, trust,
commitment); component indices 2, 5, 7, 8 are value_proposition,
social_proof, appointment_booking, follow_up. -/
def calculate_psychology_alignment_bonus (s : AppState) : ℚ :=
  if s.selected_components = [] then 0
  else
    let interest := s.customer_psychology.getD 0 0
    let urgency := s.customer_psychology.getD 1 0
    let availability := s.customer_psychology.getD 2 0
    let trust := s.customer_psychology.getD 3 0
    let commitment := s.customer_psychology.getD 4 0
    let bonus :=
      (s.selected_components.map fun i =>
        (if interest > 3/5 ∧ i ∈ [2, 5] then (5/100 : ℚ) else 0) +
        (if urgency > 3/5 ∧ i ∈ [4, 7] then (5/100 : ℚ) else 0) +
        (if availability > 3/5 ∧ i = 7 then (5/100 : ℚ) else 0) +
        (if trust > 3/5 ∧ i ∈ [7, 2] then (5/100 : ℚ) else 0) +
        (if commitment > 3/5 ∧ i ∈ [7, 8] then (5/100 : ℚ) else 0)).sum
    min bonus (1/5)

/-- `_calculate_prompt_effectiveness`: 0 on an empty selection; otherwise the
average combined effectiveness plus the preference, stage, compatibility,
efficiency and psychology bonuses, clipped to `[0, 1]`. -/
def calculate_prompt_effectiveness (s : AppState) : ℚ :=
  if s.selected_components = [] then 0
  else
    let total :=
      (s.selected_components.map fun i =>
        (effectiveness i s.customer_type +
          stage_effectiveness i s.conversation_stage) / 2).sum
    let avg := total / s.selected_components.length
    let preference_bonus :=
      ((s.selected_components.filter fun i =>
        i ∈ preferences s.customer_type).length : ℚ) * (1/10)
    let stage_bonus :=
      ((s.selected_components.filter fun i =>
        i ∈ preferred_components s.conversation_stage).length : ℚ) * (1/10)
    let compatibility_bonus :=
      calculate_compatibility_reward s.selected_components * 10
    let efficiency_bonus :=
      max 0 (((MAX_PROMPT_LENGTH : ℚ) - s.selected_components.length) *
        (5/100))
    let psychology_bonus := calculate_psychology_alignment_bonus s
    min 1 (max 0 (avg + preference_bonus + stage_bonus +
      compatibility_bonus + efficiency_bonus + psychology_bonus))

/-- `step`: decode the action; on a finish flag or an exhausted turn budget
terminate with the final effectiveness; otherwise add the component when it
is new (scoring it, plus the compatibility bonus once two components are
selected) or charge the fixed -0.1 penalty, increment the turn, and truncate
with the final effectiveness once the turn budget is reached. -/
def step (s : AppState) (action : Nat) : AppResult :=
  let finish := decode_finish action
  let position := decode_position action
  let component_idx := decode_component action
  if finish = 1 ∨ MAX_PROMPT_LENGTH ≤ s.turn then
    { state := s, reward := calculate_prompt_effectiveness s,
      terminated := true, truncated := false }
  else
    let picked :=
      if component_idx ∉ s.selected_components ∧
          position < MAX_PROMPT_LENGTH then
        let sel := s.selected_components ++ [component_idx]
        let s1 := { s with selected_components := sel,
                           prompt_so_far := s.prompt_so_far.set position 1 }
        let r := calculate_component_reward s1 component_idx
        let r :=
          if 1 < sel.length then r + calculate_compatibility_reward sel
          else r
        (s1, r)
      else
        (s, -(1/10))
    let s2 := { picked.1 with turn := picked.1.turn + 1 }
    if MAX_PROMPT_LENGTH ≤ s2.turn then
      { state := s2, reward := calculate_prompt_effectiveness s2,
        terminated := false, truncated := true }
    else
      { state := s2, reward := picked.2,
        terminated := false, truncated := false }

/-- The episode state produced by `reset`: a context triple, the noisy
psychology vector, an all-zero `prompt_so_far`, turn 0 and no selection. -/
def initial_state (ct st u : Nat) (psy : List ℚ) : AppState :=
  { customer_type := ct, conversation_stage := st, urgency_level := u,
    customer_psychology := psy,
    prompt_so_far := List.replicate MAX_PROMPT_LENGTH 0,
    turn := 0, selected_components := [] }

/-- Episode states reachable from some `reset` outcome by `step` calls. -/
inductive Reachable : AppState → Prop where
  | init : ∀ ct st u psy, ct < N_CUSTOMER_TYPES → st < N_CONVERSATION_STAGES →
      u < N_URGENCY_LEVELS → Reachable (initial_state ct st u psy)
  | next : ∀ s a, Reachable s → Reachable (step s a).state

/-- Drive an episode through a list of actions, stopping as soon as a step
reports `terminated` or `truncated`; the Boolean records whether some step
did so. -/
def run_episode (s : AppState) (acts : List Nat) : AppState × Bool :=
  match acts with
  | [] => (s, false)
  | a :: rest =>
    let r := step s a
    if r.terminated || r.truncated then (r.state, true)
    else run_episode r.state rest

/-- A fresh episode in context `(cautious, early, low)` with a flat
psychology vector. -/
def app_s0 : AppState := initial_state 0 0 0 (List.replicate 5 0)

/-- The state after selecting component 0 from `app_s0`: one component
selected, turn 1.  Concretely `(step app_s0 0).state`. -/
def state_after_one_pick : AppState :=
  { customer_type := 0, conversation_stage := 0, urgency_level := 0,
    customer_psychology := List.replicate 5 0,
    prompt_so_far := [1, 0, 0, 0, 0, 0], turn := 1,
    selected_components := [0] }

/-- The state reached from `app_s0` by selecting component 0 and then
repeating the (invalid) same selection four times: turn 5, one component
selected, episode still live. -/
def state_turn_five : AppState :=
  { customer_type := 0, conversation_stage := 0, urgency_level := 0,
    customer_psychology := List.replicate 5 0,
    prompt_so_far := [1, 0, 0, 0, 0, 0], turn := 5,
    selected_components := [0] }

end AppointmentPromptEnv

namespace PromptEnv

/-- The configuration data that `PromptEnv.__init__` extracts from the JSON
config file.  Components are indexed positionally (as in
`self.prompt_components = list(config["prompt_components"].keys())`) but the
preference lists and effectiveness lookups are keyed by name, exactly as in
the source.  `effectiveness` is `Option`-valued because the source reads it
with `component_config.get("effectiveness", 0.5)`. -/
structure GenConfig where
  prompt_components : List String
  effectiveness : String → Option ℚ
  context_types : List String
  conversation_stages : List String
  urgency_levels : List String
  context_preferred : String → List String
  stage_preferred : String → List String
  urgency_preferred : String → List String
  max_prompt_length : Nat
  max_turns : Nat

/-- Mutable per-episode state of `PromptEnv`. -/
structure GenState where
  selected_components : List Nat
  turn : Nat
  current_context_type : Nat
  current_conversation_stage : Nat
  current_urgency_level : Nat
  deriving DecidableEq

/-- The `(reward, terminated, truncated)` part of the tuple returned by
`PromptEnv.step`, together with the mutated state (the observation is a
projection of the state; `PromptEnv.step` always returns `truncated = False`
so no such field is carried). -/
structure GenResult where
  state : GenState
  reward : ℚ
  terminated : Bool

/-- `PromptEnv._calculate_component_reward`: the component's scalar
effectiveness (0.5 when the config omits it), with the 1.2 / 1.1 / 1.15
context, stage and urgency multipliers, scaled by 0.1. -/
def gen_component_reward (cfg : GenConfig) (s : GenState)
    (component_idx : Nat) : ℚ :=
  let component_name := cfg.prompt_components.getD component_idx ""
  let e0 := (cfg.effectiveness component_name).getD (1/2)
  let context_type_name := cfg.context_types.getD s.current_context_type ""
  let e1 :=
    if component_name ∈ cfg.context_preferred context_type_name then
      e0 * (12/10)
    else e0
  let stage_name :=
    cfg.conversation_stages.getD s.current_conversation_stage ""
  let e2 :=
    if component_name ∈ cfg.stage_preferred stage_name then e1 * (11/10)
    else e1
  let urgency_name := cfg.urgency_levels.getD s.current_urgency_level ""
  let e3 :=
    if urgency_name = "high" ∧
        component_name ∈ cfg.urgency_preferred urgency_name then
      e2 * (115/100)
    else e2
  e3 * (1/10)

/-- `PromptEnv._calculate_context_matching_bonus`: 0.1 per distinct selected
component name lying in the union of the context type's and the stage's
preferred lists. -/
def gen_context_matching_bonus (cfg : GenConfig) (s : GenState) : ℚ :=
  if s.selected_components = [] then 0
  else
    let context_type_name := cfg.context_types.getD s.current_context_type ""
    let stage_name :=
      cfg.conversation_stages.getD s.current_conversation_stage ""
    let preferred := cfg.context_preferred context_type_name ++
      cfg.stage_preferred stage_name
    let selected_names :=
      s.selected_components.map fun i => cfg.prompt_components.getD i ""
    ((selected_names.dedup.filter fun n => n ∈ preferred).length : ℚ) *
      (1/10)

/-- `PromptEnv._calculate_final_reward`: 0 on an empty selection; otherwise
the average scalar effectiveness plus the efficiency and context-matching
bonuses, clipped to `[0, 1]`. -/
def gen_final_reward (cfg : GenConfig) (s : GenState) : ℚ :=
  if s.selected_components = [] then 0
  else
    let total :=
      (s.selected_components.map fun i =>
        (cfg.effectiveness (cfg.prompt_components.getD i "")).getD
          (1/2)).sum
    let avg := total / s.selected_components.length
    let efficiency_bonus :=
      max 0 (((cfg.max_prompt_length : ℚ) - s.selected_components.length) *
        (5/100))
    let context_matching_bonus := gen_context_matching_bonus cfg s
    min 1 (max 0 (avg + efficiency_bonus + context_matching_bonus))

/-- `PromptEnv.step`: increment the turn; the action `len(prompt_components)`
finishes with the final reward, an already-selected component is penalized
with -0.1, any other component is appended and scored; once
`turn ≥ max_turns` the episode terminates and the reward is replaced by 0
(empty selection) or the final reward. -/
def gen_step (cfg : GenConfig) (s : GenState) (action : Nat) : GenResult :=
  let s0 := { s with turn := s.turn + 1 }
  let picked :=
    if action = cfg.prompt_components.length then
      (s0, gen_final_reward cfg s0, true)
    else if action ∈ s0.selected_components then
      (s0, -(1/10 : ℚ), false)
    else
      let s1 :=
        { s0 with selected_components := s0.selected_components ++ [action] }
      (s1, gen_component_reward cfg s1 action, false)
  let s2 := picked.1
  if cfg.max_turns ≤ s2.turn then
    { state := s2,
      reward :=
        if s2.selected_components = [] then 0 else gen_final_reward cfg s2,
      terminated := true }
  else
    { state := s2, reward := picked.2.1, terminated := picked.2.2 }

/-- `PromptEnv.reset`: empty selection, turn 0; each context field is taken
verbatim from the caller's `options` entry when present, and otherwise is the
value drawn by `self.np_random.integers(0, n)` — a uniform sample from the
declared range, modelled here by the three supplied draw values. -/
def gen_reset (cfg : GenConfig)
    (opt_context_type opt_conversation_stage opt_urgency_level : Option Nat)
    (draw_context_type draw_conversation_stage draw_urgency_level : Nat) :
    GenState :=
  { selected_components := [], turn := 0,
    current_context_type :=
      match opt_context_type with
      | some v => v
      | none => draw_context_type,
    current_conversation_stage :=
      match opt_conversation_stage with
      | some v => v
      | none => draw_conversation_stage,
    current_urgency_level :=
      match opt_urgency_level with
      | some v => v
      | none => draw_urgency_level }

/-- Episode states of `PromptEnv` reachable from some `reset` outcome by
`step` calls while the episode is live (a caller honouring the `terminated`
flag only steps states whose turn is still below `max_turns`; after a finish
action it stops as well, so this relation over-approximates the truly
reachable states). -/
inductive GenReachable (cfg : GenConfig) : GenState → Prop where
  | init : ∀ ct st u, GenReachable cfg
      { selected_components := [], turn := 0, current_context_type := ct,
        current_conversation_stage := st, current_urgency_level := u }
  | next : ∀ s a, GenReachable cfg s → s.turn < cfg.max_turns →
      GenReachable cfg (gen_step cfg s a).state

/-- Drive a `PromptEnv` episode through a list of actions, stopping as soon
as a step reports `terminated`. -/
def gen_run_episode (cfg : GenConfig) (s : GenState) (acts : List Nat) :
    GenState × Bool :=
  match acts with
  | [] => (s, false)
  | a :: rest =>
    let r := gen_step cfg s a
    if r.terminated then (r.state, true)
    else gen_run_episode cfg r.state rest

/-- A single-component configuration whose component entry omits the
`effectiveness` key entirely — the failing input for the fail-fast claim. -/
def cfg_missing_effectiveness : GenConfig :=
  { prompt_components := ["compA"],
    effectiveness := fun _ => none,
    context_types := ["general"],
    conversation_stages := ["opening"],
    urgency_levels := ["low", "medium", "high"],
    context_preferred := fun _ => [],
    stage_preferred := fun _ => [],
    urgency_preferred := fun _ => [],
    max_prompt_length := 6, max_turns := 10 }

/-- A ten-component configuration of the shape the config generator produces
(ten components, `max_prompt_length = 6`, `max_turns = 10`), used to exhibit
a reachable selection longer than `max_prompt_length`. -/
def cfg_ten : GenConfig :=
  { prompt_components := ["rapport_building", "needs_assessment",
      "value_proposition", "objection_handling", "urgency_creation",
      "social_proof", "incentive_offering", "appointment_booking",
      "follow_up", "personalization"],
    effectiveness := fun _ => some (7/10),
    context_types := ["general"],
    conversation_stages := ["opening"],
    urgency_levels := ["low", "medium", "high"],
    context_preferred := fun _ => [],
    stage_preferred := fun _ => [],
    urgency_preferred := fun _ => [],
    max_prompt_length := 6, max_turns := 10 }

/-- The `PromptEnv` state reached under `cfg_ten` by selecting components
0 through 6 in seven consecutive steps from a fresh episode. -/
def gen_state_seven_picks : GenState :=
  List.foldl (fun s a => (gen_step cfg_ten s a).state)
    { selected_components := [], turn := 0, current_context_type := 0,
      current_conversation_stage := 0, current_urgency_level := 0 }
    [0, 1, 2, 3, 4, 5, 6]

end PromptEnv

end RLPromptEngine

namespace RLPromptEngine

namespace AppointmentPromptEnv

/-- C1: for every valid triple `(c, p, f)` with `c < C`, `p < P`, `f < 2`,
decoding `encode(c,p,f) = c*(2*P) + p*2 + f` by `finish = a % 2`,
`position = (a / 2) % P`, `component = (a / (2*P)) % C` recovers exactly
`(c, p, f)`; moreover decoding is total on `[0, C*P*2)`: every such integer
decodes to an in-range triple (the embedding of the decoder is a total
function, mirroring the fact that the modulo arithmetic in the source can
never raise). -/
theorem claim1_codec_roundtrip_and_total :
    (∀ c p f : Nat, c < N_PROMPT_COMPONENTS → p < MAX_PROMPT_LENGTH → f < 2 →
      decode_component (encode_action c p f) = c ∧
      decode_position (encode_action c p f) = p ∧
      decode_finish (encode_action c p f) = f ∧
      encode_action c p f < N_PROMPT_COMPONENTS * MAX_PROMPT_LENGTH * 2) ∧
    (∀ a : Nat, a < N_PROMPT_COMPONENTS * MAX_PROMPT_LENGTH * 2 →
      decode_component a < N_PROMPT_COMPONENTS ∧
      decode_position a < MAX_PROMPT_LENGTH ∧
      decode_finish a < 2) := by
  constructor
  · intro c p f hc hp hf
    unfold decode_component decode_position decode_finish encode_action
      N_PROMPT_COMPONENTS MAX_PROMPT_LENGTH at *
    omega
  · intro a ha
    unfold decode_component decode_position decode_finish
      N_PROMPT_COMPONENTS MAX_PROMPT_LENGTH at *
    omega

/-- Witness for C1: the round trip at the concrete triple `(7, 3, 1)` and
totality at the concrete action `119`. -/
theorem claim1_witness :
    decode_component (encode_action 7 3 1) = 7 ∧
    decode_position (encode_action 7 3 1) = 3 ∧
    decode_finish (encode_action 7 3 1) = 1 ∧
    decode_component 119 < N_PROMPT_COMPONENTS := by
  refine ⟨(claim1_codec_roundtrip_and_total.1 7 3 1 (by decide) (by decide)
    (by decide)).1,
    (claim1_codec_roundtrip_and_total.1 7 3 1 (by decide) (by decide)
      (by decide)).2.1,
    (claim1_codec_roundtrip_and_total.1 7 3 1 (by decide) (by decide)
      (by decide)).2.2.1,
    (claim1_codec_roundtrip_and_total.2 119 (by decide)).1⟩

/-- Bounds of the default catalog's `effectiveness` table: every declared
entry lies in `[0.2, 0.9]`. -/
theorem effectiveness_bounds :
    ∀ c, c < N_PROMPT_COMPONENTS → ∀ t, t < N_CUSTOMER_TYPES →
      1/5 ≤ effectiveness c t ∧ effectiveness c t ≤ 9/10 := by
  intro c hc t ht
  unfold N_PROMPT_COMPONENTS at hc
  unfold N_CUSTOMER_TYPES at ht
  interval_cases c <;> interval_cases t <;>
    norm_num [effectiveness, effectiveness_table]

/-- Bounds of the default catalog's `stage_effectiveness` table: every
declared entry lies in `[0.2, 0.9]`. -/
theorem stage_effectiveness_bounds :
    ∀ c, c < N_PROMPT_COMPONENTS → ∀ st, st < N_CONVERSATION_STAGES →
      1/5 ≤ stage_effectiveness c st ∧ stage_effectiveness c st ≤ 9/10 := by
  intro c hc st hst
  unfold N_PROMPT_COMPONENTS at hc
  unfold N_CONVERSATION_STAGES at hst
  interval_cases c <;> interval_cases st <;>
    norm_num [stage_effectiveness, stage_effectiveness_table]

/-- The step reward of a valid selection lies in `[1/50, 3/20]` for any
in-range component and context. -/
theorem calculate_component_reward_bounds (s : AppState) (idx : Nat)
    (hidx : idx < N_PROMPT_COMPONENTS)
    (hct : s.customer_type < N_CUSTOMER_TYPES)
    (hst : s.conversation_stage < N_CONVERSATION_STAGES) :
    1/50 ≤ calculate_component_reward s idx ∧
      calculate_component_reward s idx ≤ 3/20 := by
  obtain ⟨he1, he2⟩ := effectiveness_bounds idx hidx s.customer_type hct
  obtain ⟨hs1, hs2⟩ := stage_effectiveness_bounds idx hidx
    s.conversation_stage hst
  simp only [calculate_component_reward]
  set b := effectiveness idx s.customer_type with hb
  set c := stage_effectiveness idx s.conversation_stage with hc
  split_ifs <;> constructor <;> nlinarith

/-- The compatibility reward is an average of per-pair scores in
`[-0.3, 1]` scaled by `0.05`, so it lies in `[-3/200, 1/20]`. -/
theorem calculate_compatibility_reward_bounds (sel : List Nat) :
    -(3/200) ≤ calculate_compatibility_reward sel ∧
      calculate_compatibility_reward sel ≤ 1/20 := by
  simp only [calculate_compatibility_reward]
  split_ifs with h1 h2
  · norm_num
  · have hub : ∀ x ∈ (compatibility_pairs sel).map
        (fun p => if p.2 ∈ compatibility p.1 then (1 : ℚ) else -(3/10)),
        x ≤ 1 := by
      intro x hx
      simp only [List.mem_map] at hx
      obtain ⟨p, _, rfl⟩ := hx
      split_ifs <;> norm_num
    have hlb : ∀ x ∈ (compatibility_pairs sel).map
        (fun p => if p.2 ∈ compatibility p.1 then (1 : ℚ) else -(3/10)),
        -(3/10) ≤ x := by
      intro x hx
      simp only [List.mem_map] at hx
      obtain ⟨p, _, rfl⟩ := hx
      split_ifs <;> norm_num
    have hsum_le := List.sum_le_card_nsmul _ _ hub
    have hsum_ge := List.card_nsmul_le_sum _ _ hlb
    rw [List.length_map] at hsum_le hsum_ge
    have hL : (0 : ℚ) < ((compatibility_pairs sel).length : ℚ) := by
      exact_mod_cast h2
    rw [nsmul_eq_mul] at hsum_le hsum_ge
    constructor
    · have hq : -(3/10) ≤ ((compatibility_pairs sel).map
          (fun p => if p.2 ∈ compatibility p.1 then (1 : ℚ)
            else -(3/10))).sum / ((compatibility_pairs sel).length : ℚ) := by
        rw [le_div_iff₀ hL]
        nlinarith [hsum_ge]
      nlinarith [hq]
    · have hq : ((compatibility_pairs sel).map
          (fun p => if p.2 ∈ compatibility p.1 then (1 : ℚ)
            else -(3/10))).sum / ((compatibility_pairs sel).length : ℚ)
          ≤ 1 := by
        rw [div_le_one hL]
        nlinarith [hsum_le]
      nlinarith [hq]
  · norm_num

/-- The final effectiveness score is clipped to `[0, 1]` by construction. -/
theorem calculate_prompt_effectiveness_bounds (s : AppState) :
    0 ≤ calculate_prompt_effectiveness s ∧
      calculate_prompt_effectiveness s ≤ 1 := by
  simp only [calculate_prompt_effectiveness]
  split_ifs with h
  · norm_num
  · exact ⟨le_min (by norm_num) (le_max_left 0 _), min_le_left 1 _⟩

/-- C2 (amended): in a live episode, an action whose finish flag is unset and
whose decoded component is already selected leaves the state unchanged except
for `turn += 1` and never marks `terminated`; the reward is the fixed `-0.1`
penalty exactly when the incremented turn is still below the budget, and is
replaced by the final effectiveness score (with `truncated = true`) when the
step exhausts the budget. -/
theorem claim2_duplicate_selection (s : AppState) (a : Nat)
    (hfin : decode_finish a ≠ 1) (hlive : s.turn < MAX_PROMPT_LENGTH)
    (hdup : decode_component a ∈ s.selected_components) :
    (step s a).state = { s with turn := s.turn + 1 } ∧
    (step s a).terminated = false ∧
    (s.turn + 1 < MAX_PROMPT_LENGTH →
      (step s a).reward = -(1/10) ∧ (step s a).truncated = false) ∧
    (MAX_PROMPT_LENGTH ≤ s.turn + 1 →
      (step s a).reward =
        calculate_prompt_effectiveness { s with turn := s.turn + 1 } ∧
      (step s a).truncated = true) := by
  have h1 : ¬(decode_finish a = 1 ∨ MAX_PROMPT_LENGTH ≤ s.turn) := by
    rintro (h | h)
    · exact hfin h
    · omega
  have h2 : ¬(decode_component a ∉ s.selected_components ∧
      decode_position a < MAX_PROMPT_LENGTH) := fun h => h.1 hdup
  simp only [step, if_neg h1, if_neg h2]
  refine ⟨by split <;> rfl, by split <;> rfl, ?_, ?_⟩
  · intro h
    rw [if_neg (by omega : ¬ MAX_PROMPT_LENGTH ≤ s.turn + 1)]
    exact ⟨rfl, rfl⟩
  · intro h
    rw [if_pos h]
    exact ⟨rfl, rfl⟩

/-- Witness for C2 (amended): re-selecting component 0 at turn 1 yields the
`-0.1` penalty and only increments the turn. -/
theorem claim2_witness :
    decode_finish 0 ≠ 1 ∧ state_after_one_pick.turn < MAX_PROMPT_LENGTH ∧
    decode_component 0 ∈ state_after_one_pick.selected_components ∧
    (step state_after_one_pick 0).reward = -(1/10) ∧
    (step state_after_one_pick 0).state =
      { state_after_one_pick with turn := 2 } := by
  refine ⟨by decide, by decide, by decide, ?_, ?_⟩
  · exact ((claim2_duplicate_selection state_after_one_pick 0 (by decide)
      (by decide) (by decide)).2.2.1 (by decide)).1
  · exact (claim2_duplicate_selection state_after_one_pick 0 (by decide)
      (by decide) (by decide)).1

/-- Counterexample for C2 as stated: `state_turn_five` is a reachable live
state (turn 5, component 0 selected); action 0 decodes to a duplicate of
component 0 with the finish flag unset, yet `step` returns reward `1` — the
final effectiveness score substituted by the truncation branch — not the
claimed `-0.1`. -/
theorem claim2_counterexample :
    decode_finish 0 ≠ 1 ∧
    decode_component 0 ∈ state_turn_five.selected_components ∧
    state_turn_five.turn < MAX_PROMPT_LENGTH ∧
    Reachable state_turn_five ∧
    (step state_turn_five 0).reward = 1 ∧
    (step state_turn_five 0).reward ≠ -(1/10) := by
  refine ⟨by decide, by decide, by decide, ?_, ?_, ?_⟩
  · have h0 : Reachable app_s0 :=
      Reachable.init 0 0 0 _ (by decide) (by decide) (by decide)
    have h1 := Reachable.next _ 0 h0
    have h2 := Reachable.next _ 0 h1
    have h3 := Reachable.next _ 0 h2
    have h4 := Reachable.next _ 0 h3
    have h5 := Reachable.next _ 0 h4
    have e : (step (step (step (step (step app_s0 0).state 0).state 0).state
        0).state 0).state = state_turn_five := by decide
    rwa [e] at h5
  · norm_num [step, decode_finish, decode_position, decode_component,
      state_turn_five, MAX_PROMPT_LENGTH, N_PROMPT_COMPONENTS,
      calculate_prompt_effectiveness, calculate_compatibility_reward,
      calculate_psychology_alignment_bonus, compatibility_pairs,
      effectiveness, effectiveness_table, stage_effectiveness,
      stage_effectiveness_table, preferences, preferred_components,
      List.getD, min_def, max_def]
  · norm_num [step, decode_finish, decode_position, decode_component,
      state_turn_five, MAX_PROMPT_LENGTH, N_PROMPT_COMPONENTS,
      calculate_prompt_effectiveness, calculate_compatibility_reward,
      calculate_psychology_alignment_bonus, compatibility_pairs,
      effectiveness, effectiveness_table, stage_effectiveness,
      stage_effectiveness_table, preferences, preferred_components,
      List.getD, min_def, max_def]

/-- C3 (amended): in every episode state with in-range context indices, the
reward returned by `step` either is the fixed invalid-action penalty `-0.1`
or lies in `[0, 1]`. -/
theorem claim3_reward_range (s : AppState) (a : Nat)
    (hct : s.customer_type < N_CUSTOMER_TYPES)
    (hst : s.conversation_stage < N_CONVERSATION_STAGES) :
    (step s a).reward = -(1/10) ∨
      (0 ≤ (step s a).reward ∧ (step s a).reward ≤ 1) := by
  have hidx : decode_component a < N_PROMPT_COMPONENTS :=
    Nat.mod_lt _ (by decide)
  simp only [step]
  split_ifs with h1 h2 h3 h4 h5 <;> dsimp only
  · exact Or.inr (calculate_prompt_effectiveness_bounds s)
  · exact Or.inr (calculate_prompt_effectiveness_bounds _)
  · refine Or.inr ?_
    have hc := calculate_component_reward_bounds
      ({ s with
          selected_components := s.selected_components ++ [decode_component a],
          prompt_so_far := s.prompt_so_far.set (decode_position a) 1 })
      (decode_component a) hidx hct hst
    have hb := calculate_compatibility_reward_bounds
      (s.selected_components ++ [decode_component a])
    exact ⟨by nlinarith [hc.1, hb.1], by nlinarith [hc.2, hb.2]⟩
  · exact Or.inr (calculate_prompt_effectiveness_bounds _)
  · refine Or.inr ?_
    have hc := calculate_component_reward_bounds
      ({ s with
          selected_components := s.selected_components ++ [decode_component a],
          prompt_so_far := s.prompt_so_far.set (decode_position a) 1 })
      (decode_component a) hidx hct hst
    exact ⟨by nlinarith [hc.1], by nlinarith [hc.2]⟩
  · exact Or.inr (calculate_prompt_effectiveness_bounds _)
  · exact Or.inl rfl

/-- Counterexample for C3 as stated: `state_after_one_pick` is reachable and
re-selecting component 0 there returns reward `-0.1`, a value outside
`[0, 1]`. -/
theorem claim3_counterexample :
    Reachable state_after_one_pick ∧
      (step state_after_one_pick 0).reward = -(1/10) ∧
      (step state_after_one_pick 0).reward < 0 := by
  refine ⟨?_, ?_, ?_⟩
  · have h0 : Reachable app_s0 :=
      Reachable.init 0 0 0 _ (by decide) (by decide) (by decide)
    have h1 := Reachable.next _ 0 h0
    have e : (step app_s0 0).state = state_after_one_pick := by decide
    rwa [e] at h1
  · norm_num [step, decode_finish, decode_position, decode_component,
      state_after_one_pick, MAX_PROMPT_LENGTH, N_PROMPT_COMPONENTS]
  · norm_num [step, decode_finish, decode_position, decode_component,
      state_after_one_pick, MAX_PROMPT_LENGTH, N_PROMPT_COMPONENTS]

/-- Witness for C3 (amended): the reward of the first selection from a fresh
`(cautious, early, low)` episode satisfies the range disjunction. -/
theorem claim3_witness :
    (step app_s0 0).reward = -(1/10) ∨
      (0 ≤ (step app_s0 0).reward ∧ (step app_s0 0).reward ≤ 1) :=
  claim3_reward_range app_s0 0 (by decide) (by decide)

/-- C4: for every component id and context, the step reward of
`_calculate_component_reward` equals the average of the component's
customer-type and stage effectiveness, multiplied by 1.2 for a customer
preference match, by 1.1 for a stage preference match, by 1.15 when urgency
is high and the component is urgency-tagged, and scaled by 0.1 — the
sequential in-place multiplications of the source compute exactly the
product formula of the specification. -/
theorem claim4_component_reward_formula :
    ∀ (s : AppState) (idx : Nat),
      calculate_component_reward s idx = component_reward_formula s idx := by
  intro s idx
  simp only [calculate_component_reward, component_reward_formula]
  split_ifs <;> ring

/-- C10: two actions that decode to the same component and finish flag but
different positions produce the same reward, the same termination and
truncation flags, and the same state except possibly for the
`prompt_so_far` indicator — the decoded position influences nothing else. -/
theorem claim10_position_independence (s : AppState) (a b : Nat)
    (hf : decode_finish a = decode_finish b)
    (hc : decode_component a = decode_component b) :
    (step s a).reward = (step s b).reward ∧
    (step s a).terminated = (step s b).terminated ∧
    (step s a).truncated = (step s b).truncated ∧
    (step s a).state.selected_components =
      (step s b).state.selected_components ∧
    (step s a).state.turn = (step s b).state.turn ∧
    (step s a).state.customer_type = (step s b).state.customer_type ∧
    (step s a).state.conversation_stage =
      (step s b).state.conversation_stage ∧
    (step s a).state.urgency_level = (step s b).state.urgency_level ∧
    (step s a).state.customer_psychology =
      (step s b).state.customer_psychology := by
  have hpa : decode_position a < MAX_PROMPT_LENGTH := Nat.mod_lt _ (by decide)
  have hpb : decode_position b < MAX_PROMPT_LENGTH := Nat.mod_lt _ (by decide)
  simp only [step, hf, hc, hpa, hpb, and_true]
  split_ifs <;> dsimp only <;>
    exact ⟨rfl, rfl, rfl, rfl, rfl, rfl, rfl, rfl, rfl⟩

/-- Witness for C10: actions `encode(1,0,0) = 12` and `encode(1,4,0) = 20`
differ only in position and give the same reward and selection from
`state_after_one_pick`. -/
theorem claim10_witness :
    (step state_after_one_pick (encode_action 1 0 0)).reward =
      (step state_after_one_pick (encode_action 1 4 0)).reward ∧
    (step state_after_one_pick (encode_action 1 0 0)).state.selected_components
      = (step state_after_one_pick
          (encode_action 1 4 0)).state.selected_components := by
  have h := claim10_position_independence state_after_one_pick
    (encode_action 1 0 0) (encode_action 1 4 0) (by decide) (by decide)
  exact ⟨h.1, h.2.2.2.1⟩

/-- An action with the finish flag set, or arriving with an exhausted budget,
reports `terminated`. -/
theorem step_done_of (s : AppState) (a : Nat)
    (h2 : MAX_PROMPT_LENGTH ≤ s.turn + 1) :
    (step s a).terminated = true ∨ (step s a).truncated = true := by
  by_cases h1 : decode_finish a = 1 ∨ MAX_PROMPT_LENGTH ≤ s.turn
  · left
    simp only [step, if_pos h1]
  · right
    simp only [step, if_neg h1]
    split_ifs <;> first | rfl | (dsimp only at *; omega)

/-- A step that reports neither flag increments the turn and stays below the
budget. -/
theorem step_turn_of_not_done (s : AppState) (a : Nat)
    (hterm : (step s a).terminated = false)
    (htrunc : (step s a).truncated = false) :
    (step s a).state.turn = s.turn + 1 ∧ s.turn + 1 < MAX_PROMPT_LENGTH := by
  by_cases h1 : decode_finish a = 1 ∨ MAX_PROMPT_LENGTH ≤ s.turn
  · exfalso
    simp only [step, if_pos h1] at hterm
    exact Bool.true_eq_false.mp hterm
  · simp only [step, if_neg h1] at htrunc ⊢
    constructor
    · split_ifs <;> dsimp only <;> rfl
    · by_contra hcon
      rw [if_pos] at htrunc
      · exact Bool.true_eq_false.mp htrunc
      · split_ifs <;> dsimp only <;> omega

/-- Any action list long enough to exhaust the turn budget drives
`run_episode` to a terminal signal. -/
theorem run_episode_done (acts : List Nat) :
    ∀ s : AppState, MAX_PROMPT_LENGTH ≤ s.turn + acts.length →
      acts ≠ [] → (run_episode s acts).2 = true := by
  induction acts with
  | nil => intro s _ hne; exact absurd rfl hne
  | cons a rest ih =>
    intro s h _
    simp only [run_episode]
    by_cases hdone : (step s a).terminated || (step s a).truncated
    · rw [if_pos hdone]
    · rw [if_neg hdone]
      rw [Bool.or_eq_true, not_or, Bool.not_eq_true, Bool.not_eq_true]
        at hdone
      obtain ⟨hterm, htrunc⟩ := hdone
      obtain ⟨ht, hlt⟩ := step_turn_of_not_done s a hterm htrunc
      have hne : rest ≠ [] := by
        intro hnil
        subst hnil
        simp only [List.length_cons, List.length_nil] at h
        omega
      apply ih
      · rw [ht]
        simp only [List.length_cons] at h
        omega
      · exact hne

/-- Every reachable state of the appointment environment keeps its selection
duplicate-free, bounded by the turn counter, which never exceeds the budget. -/
theorem reachable_invariant (s : AppState) (h : Reachable s) :
    s.selected_components.Nodup ∧
      s.selected_components.length ≤ s.turn ∧
      s.turn ≤ MAX_PROMPT_LENGTH := by
  induction h with
  | init ct st u psy h1 h2 h3 =>
    simp [initial_state, MAX_PROMPT_LENGTH]
  | next s a hs ih =>
    obtain ⟨hnd, hlen, hturn⟩ := ih
    by_cases h1 : decode_finish a = 1 ∨ MAX_PROMPT_LENGTH ≤ s.turn
    · simp only [step, if_pos h1]
      exact ⟨hnd, hlen, hturn⟩
    · have hlt : s.turn < MAX_PROMPT_LENGTH := by
        rcases Nat.lt_or_ge s.turn MAX_PROMPT_LENGTH with h | h
        · exact h
        · exact absurd (Or.inr h) h1
      simp only [step, if_neg h1]
      split_ifs with hp htr <;> dsimp only <;>
        refine ⟨?_, ?_, ?_⟩ <;>
        first
          | (simp only [List.nodup_append, List.nodup_cons,
              List.nodup_nil, List.disjoint_singleton, and_true,
              true_and, List.not_mem_nil, not_false_iff]
             exact ⟨hnd, hp.1⟩)
          | exact hnd
          | (simp only [List.length_append, List.length_singleton]; omega)
          | omega

end AppointmentPromptEnv

namespace PromptEnv

/-- `PromptEnv.step` always increments the turn counter by one. -/
theorem gen_step_turn (cfg : GenConfig) (s : GenState) (a : Nat) :
    (gen_step cfg s a).state.turn = s.turn + 1 := by
  simp only [gen_step]
  split_ifs <;> rfl

/-- `PromptEnv.step` reports `terminated` whenever the incremented turn
reaches the configured budget. -/
theorem gen_step_done_of (cfg : GenConfig) (s : GenState) (a : Nat)
    (h : cfg.max_turns ≤ s.turn + 1) :
    (gen_step cfg s a).terminated = true := by
  simp only [gen_step]
  split_ifs <;> first | rfl | (dsimp only at *; omega)

/-- Any action list long enough to exhaust the configured budget drives
`gen_run_episode` to a terminal signal. -/
theorem gen_run_episode_done (cfg : GenConfig) (acts : List Nat) :
    ∀ s : GenState, cfg.max_turns ≤ s.turn + acts.length →
      acts ≠ [] → (gen_run_episode cfg s acts).2 = true := by
  induction acts with
  | nil => intro s _ hne; exact absurd rfl hne
  | cons a rest ih =>
    intro s h _
    simp only [gen_run_episode]
    by_cases hdone : (gen_step cfg s a).terminated
    · rw [if_pos hdone]
    · rw [if_neg hdone]
      have hlt : s.turn + 1 < cfg.max_turns := by
        by_contra hcon
        simp only [List.length_cons] at h
        have : cfg.max_turns ≤ s.turn + 1 := by omega
        exact hdone (gen_step_done_of cfg s a this)
      have hne : rest ≠ [] := by
        intro hnil
        subst hnil
        simp only [List.length_cons, List.length_nil] at h
        omega
      apply ih
      · rw [gen_step_turn]
        simp only [List.length_cons] at h
        omega
      · exact hne

/-- Every live-reachable state of the generic environment keeps its selection
duplicate-free and bounded by the turn counter, which never exceeds the
configured budget. -/
theorem gen_reachable_invariant (cfg : GenConfig) (s : GenState)
    (h : GenReachable cfg s) :
    s.selected_components.Nodup ∧
      s.selected_components.length ≤ s.turn ∧
      s.turn ≤ cfg.max_turns := by
  induction h with
  | init ct st u => simp
  | next s a hs hlt ih =>
    obtain ⟨hnd, hlen, hturn⟩ := ih
    simp only [gen_step]
    split_ifs <;> dsimp only at * <;>
      refine ⟨?_, ?_, ?_⟩ <;>
      first
        | exact hnd
        | (refine hnd.append (List.nodup_singleton _)
            (List.disjoint_singleton.mpr ?_)
           assumption)
        | (simp only [List.length_append, List.length_singleton]; omega)
        | omega

end PromptEnv

open AppointmentPromptEnv PromptEnv in
/-- C5: from any freshly reset state the episode reports a terminal signal
within `maxTurns` calls to `step`, whatever the actions: in the appointment
environment the turn budget is `MAX_PROMPT_LENGTH`, in the generic
environment it is the configured (positive) `max_turns`. -/
theorem claim5_episode_bounded :
    (∀ (ct st u : Nat) (psy : List ℚ) (acts : List Nat),
      acts.length = MAX_PROMPT_LENGTH →
      (run_episode (initial_state ct st u psy) acts).2 = true) ∧
    (∀ (cfg : GenConfig) (ct st u : Nat) (acts : List Nat),
      0 < cfg.max_turns → acts.length = cfg.max_turns →
      (gen_run_episode cfg
        { selected_components := [], turn := 0, current_context_type := ct,
          current_conversation_stage := st, current_urgency_level := u }
        acts).2 = true) := by
  constructor
  · intro ct st u psy acts hlen
    apply run_episode_done
    · simp [initial_state, hlen]
    · intro hnil
      rw [hnil] at hlen
      simp [MAX_PROMPT_LENGTH] at hlen
  · intro cfg ct st u acts hpos hlen
    apply gen_run_episode_done
    · simp [hlen]
    · intro hnil
      rw [hnil] at hlen
      simp at hlen
      omega

open AppointmentPromptEnv PromptEnv in
/-- Witness for C5: six all-zero actions exhaust a fresh appointment episode
and ten exhaust a fresh `cfg_ten` episode. -/
theorem claim5_witness :
    (run_episode (initial_state 0 0 0 (List.replicate 5 0))
      [0, 0, 0, 0, 0, 0]).2 = true ∧
    (gen_run_episode cfg_ten
      { selected_components := [], turn := 0, current_context_type := 0,
        current_conversation_stage := 0, current_urgency_level := 0 }
      [0, 0, 0, 0, 0, 0, 0, 0, 0, 0]).2 = true :=
  ⟨claim5_episode_bounded.1 0 0 0 (List.replicate 5 0) _ (by decide),
   claim5_episode_bounded.2 cfg_ten 0 0 0 _ (by decide) (by decide)⟩

open AppointmentPromptEnv PromptEnv in
/-- C9 (amended): in every reachable state of the appointment environment the
selection is duplicate-free with length at most `MAX_PROMPT_LENGTH`; in every
live-reachable state of the generic environment the selection is
duplicate-free with length at most the turn counter (hence at most
`max_turns`), but it is not bounded by `max_prompt_length`. -/
theorem claim9_selection_invariants :
    (∀ s : AppState, Reachable s →
      s.selected_components.Nodup ∧
        s.selected_components.length ≤ MAX_PROMPT_LENGTH) ∧
    (∀ (cfg : GenConfig) (s : GenState), GenReachable cfg s →
      s.selected_components.Nodup ∧
        s.selected_components.length ≤ s.turn ∧ s.turn ≤ cfg.max_turns) := by
  constructor
  · intro s h
    obtain ⟨hnd, hlen, hturn⟩ := AppointmentPromptEnv.reachable_invariant s h
    exact ⟨hnd, hlen.trans hturn⟩
  · exact PromptEnv.gen_reachable_invariant

open AppointmentPromptEnv PromptEnv in
/-- Witness for C9 (amended): the reachable state `state_after_one_pick`
satisfies both parts of the appointment-environment invariant. -/
theorem claim9_witness :
    state_after_one_pick.selected_components.Nodup ∧
      state_after_one_pick.selected_components.length ≤ MAX_PROMPT_LENGTH := by
  apply claim9_selection_invariants.1
  have h0 : Reachable app_s0 :=
    Reachable.init 0 0 0 _ (by decide) (by decide) (by decide)
  have h1 := Reachable.next _ 0 h0
  have e : (step app_s0 0).state = state_after_one_pick := by decide
  rwa [e] at h1

namespace PromptEnv

/-- Counterexample for C9 as stated: under the ten-component configuration
`cfg_ten` the generic environment reaches, in seven live steps, a state whose
selection has seven components — more than `max_prompt_length = 6`.  The
generic `step` never checks the selection length against
`max_prompt_length`. -/
theorem claim9_counterexample :
    GenReachable cfg_ten gen_state_seven_picks ∧
      gen_state_seven_picks.selected_components.length = 7 ∧
      cfg_ten.max_prompt_length = 6 := by
  refine ⟨?_, by decide, by decide⟩
  have h0 : GenReachable cfg_ten
      { selected_components := [], turn := 0, current_context_type := 0,
        current_conversation_stage := 0, current_urgency_level := 0 } :=
    GenReachable.init 0 0 0
  have h1 := GenReachable.next _ 0 h0 (by decide)
  have h2 := GenReachable.next _ 1 h1 (by decide)
  have h3 := GenReachable.next _ 2 h2 (by decide)
  have h4 := GenReachable.next _ 3 h3 (by decide)
  have h5 := GenReachable.next _ 4 h4 (by decide)
  have h6 := GenReachable.next _ 5 h5 (by decide)
  have h7 := GenReachable.next _ 6 h6 (by decide)
  exact h7

end PromptEnv

open AppointmentPromptEnv PromptEnv in
/-- C6: the final effectiveness score of an empty selection is exactly 0, in
both the appointment environment (`_calculate_prompt_effectiveness`) and the
generic environment (`_calculate_final_reward`), for every context. -/
theorem claim6_empty_selection_zero :
    (∀ (ct st u : Nat) (psy pf : List ℚ) (t : Nat),
      calculate_prompt_effectiveness
        { customer_type := ct, conversation_stage := st, urgency_level := u,
          customer_psychology := psy, prompt_so_far := pf, turn := t,
          selected_components := [] } = 0) ∧
    (∀ (cfg : GenConfig) (ct st u t : Nat),
      gen_final_reward cfg
        { selected_components := [], turn := t, current_context_type := ct,
          current_conversation_stage := st,
          current_urgency_level := u } = 0) := by
  constructor
  · intro ct st u psy pf t
    simp [calculate_prompt_effectiveness]
  · intro cfg ct st u t
    simp [gen_final_reward]

namespace PromptEnv

/-- C7: `PromptEnv.reset` starts with an empty selection at turn 0; each
context field supplied through `options` is used verbatim, and each field not
supplied equals the value drawn by `np_random.integers(0, n)` over its
declared range (the draw being uniform is the documented contract of the
sampler, modelled here as the supplied draw value). -/
theorem claim7_reset_context (cfg : GenConfig)
    (o1 o2 o3 : Option Nat) (d1 d2 d3 : Nat) :
    (gen_reset cfg o1 o2 o3 d1 d2 d3).selected_components = [] ∧
    (gen_reset cfg o1 o2 o3 d1 d2 d3).turn = 0 ∧
    (∀ v, o1 = some v →
      (gen_reset cfg o1 o2 o3 d1 d2 d3).current_context_type = v) ∧
    (o1 = none →
      (gen_reset cfg o1 o2 o3 d1 d2 d3).current_context_type = d1) ∧
    (∀ v, o2 = some v →
      (gen_reset cfg o1 o2 o3 d1 d2 d3).current_conversation_stage = v) ∧
    (o2 = none →
      (gen_reset cfg o1 o2 o3 d1 d2 d3).current_conversation_stage = d2) ∧
    (∀ v, o3 = some v →
      (gen_reset cfg o1 o2 o3 d1 d2 d3).current_urgency_level = v) ∧
    (o3 = none →
      (gen_reset cfg o1 o2 o3 d1 d2 d3).current_urgency_level = d3) := by
  refine ⟨rfl, rfl, ?_, ?_, ?_, ?_, ?_, ?_⟩ <;>
    first
      | (intro v h; subst h; rfl)
      | (intro h; subst h; rfl)

/-- Witness for C7: supplying context type 3 and urgency 1 while leaving the
stage unsupplied yields exactly those values, with the stage taken from the
draw. -/
theorem claim7_witness :
    (gen_reset cfg_ten (some 3) none (some 1) 5 6 7).current_context_type
        = 3 ∧
    (gen_reset cfg_ten (some 3) none (some 1)
        5 6 7).current_conversation_stage = 6 ∧
    (gen_reset cfg_ten (some 3) none (some 1) 5 6 7).current_urgency_level
        = 1 ∧
    (gen_reset cfg_ten (some 3) none (some 1) 5 6 7).turn = 0 := by
  obtain ⟨hsel, ht, hc1, hc2, hc3, hc4, hc5, hc6⟩ :=
    claim7_reset_context cfg_ten (some 3) none (some 1) 5 6 7
  exact ⟨hc1 3 rfl, hc4 rfl, hc5 1 rfl, ht⟩

/-- C8 evidence: under `cfg_missing_effectiveness`, whose only component
entry has no `effectiveness` value, selecting that component neither fails at
load time nor at lookup time — the episode proceeds with the silently
substituted default `0.5`, giving step reward `0.5 * 0.1 = 1/20`.  This
contradicts the claim that construction fails fast and that no missing entry
is ever replaced by a default. -/
theorem claim8_missing_effectiveness_defaults :
    (gen_step cfg_missing_effectiveness
      { selected_components := [], turn := 0, current_context_type := 0,
        current_conversation_stage := 0,
        current_urgency_level := 0 } 0).reward = 1/20 ∧
    (gen_step cfg_missing_effectiveness
      { selected_components := [], turn := 0, current_context_type := 0,
        current_conversation_stage := 0,
        current_urgency_level := 0 } 0).terminated = false := by
  constructor
  · norm_num [gen_step, gen_component_reward, cfg_missing_effectiveness]
  · decide

end PromptEnv

end RLPromptEngine
